import Mathlib

/-!
Verification development for the Shame Clock browser extension's adaptive
intervention scheduler.  The JavaScript modules under scrutiny are embedded
shallowly as pure Lean functions:

* the scheduler module (quiet hours, work hours, weekend mode, custom
  schedule rules) from the advanced scheduling system file;
* the time tracker (daily ledger, active session) from the core time
  tracking file;
* the goals module (goal progress percentages, threshold notifications,
  notification history) from the goals file;
* the service worker's popup trigger check, modelled as a function from a
  tick state to an ordered list of observable effects.

JavaScript numbers are embedded as Int (milliseconds, thresholds) or Rat
(multipliers and percentages, where the source divides); JS objects used as
string-keyed maps are embedded as association lists; null/undefined become
Option.  A falsy test on a number in the source (such as the bare truthiness
checks on startTime or a ledger value) is embedded as an explicit comparison
with 0.  Asynchronous storage reads/writes are embedded as explicit state
passing; the wall clock, which the source samples via Date, is a record of
the quantities the source derives from it.
-/

namespace ShameClock

/-- A time of day parsed from an "HH:MM" string, as the scheduler's
isWithinTimeRange parses it with split and Number. -/
structure TimeHM where
  hour : Nat
  minute : Nat
deriving DecidableEq, Repr

/-- Minutes since midnight, mirroring startHour * 60 + startMin. -/
def TimeHM.toMinutes (t : TimeHM) : Nat :=
  t.hour * 60 + t.minute

/-- A custom schedule rule as stored in schedulerConfig.schedules. -/
structure ScheduleRule where
  id : String
  enabled : Bool
  startTime : TimeHM
  endTime : TimeHM
  days : List Nat
  action : String
  thresholdMultiplier : Rat
deriving DecidableEq, Repr

/-- The quickSettings object of the scheduler configuration. -/
structure QuickSettings where
  quietHoursEnabled : Bool
  quietHoursStart : TimeHM
  quietHoursEnd : TimeHM
  workHoursEnabled : Bool
  workHoursStart : TimeHM
  workHoursEnd : TimeHM
  workDays : List Nat
  weekendMode : Bool
  weekendMultiplier : Rat
deriving DecidableEq, Repr

/-- The schedulerConfig record. -/
structure SchedulerConfig where
  enabled : Bool
  schedules : List ScheduleRule
  quickSettings : QuickSettings
deriving DecidableEq, Repr

/-- The wall-clock quantities the source derives from Date objects during one
tick: Date.now() in epoch milliseconds, getHours() * 60 + getMinutes(),
getDay(), the YYYY-MM-DD key of today, and, for weekly goals, the epoch value
of the date seven days ago together with the valuation the source obtains by
constructing a Date from a stored day key. -/
structure Clock where
  nowMs : Int
  minutesOfDay : Nat
  dayOfWeek : Nat
  today : String
  weekAgoMs : Int
  dateValue : String → Int

/-- Embedding of isWithinTimeRange from the scheduler module: membership of
the current minute of day in [start, end), where a range whose start is
strictly later than its end wraps around midnight. -/
def isWithinTimeRange (startTime endTime : TimeHM) (currentMinutes : Nat) : Bool :=
  let startMinutes := startTime.toMinutes
  let endMinutes := endTime.toMinutes
  if startMinutes > endMinutes then
    decide (currentMinutes ≥ startMinutes) || decide (currentMinutes < endMinutes)
  else
    decide (currentMinutes ≥ startMinutes) && decide (currentMinutes < endMinutes)

/-- Embedding of isQuietHours: requires the master switch and the quiet-hours
quick setting, then tests the quiet-hours range. -/
def isQuietHours (cfg : SchedulerConfig) (c : Clock) : Bool :=
  cfg.enabled && cfg.quickSettings.quietHoursEnabled &&
    isWithinTimeRange cfg.quickSettings.quietHoursStart cfg.quickSettings.quietHoursEnd
      c.minutesOfDay

/-- Embedding of isWeekend: Sunday (0) or Saturday (6). -/
def isWeekend (c : Clock) : Bool :=
  c.dayOfWeek == 0 || c.dayOfWeek == 6

/-- Embedding of isWorkHours: master switch, work-hours quick setting, the
current weekday among workDays, and the work-hours range. -/
def isWorkHours (cfg : SchedulerConfig) (c : Clock) : Bool :=
  cfg.enabled && cfg.quickSettings.workHoursEnabled &&
    cfg.quickSettings.workDays.contains c.dayOfWeek &&
    isWithinTimeRange cfg.quickSettings.workHoursStart cfg.quickSettings.workHoursEnd
      c.minutesOfDay

/-- Embedding of isScheduleActive for a single rule: today among the rule's
days and the current time within the rule's range.  The source does not
consult the rule's enabled flag here; callers test it separately. -/
def isScheduleActive (s : ScheduleRule) (c : Clock) : Bool :=
  s.days.contains c.dayOfWeek &&
    isWithinTimeRange s.startTime s.endTime c.minutesOfDay

/-- Embedding of getCurrentThresholdMultiplier: 1 when the scheduler is
disabled; otherwise the weekend factor, then the fixed 0.5 work-hours factor,
then each enabled active adjust_threshold rule's multiplier, composed in the
source's loop order. -/
def getCurrentThresholdMultiplier (cfg : SchedulerConfig) (c : Clock) : Rat :=
  if cfg.enabled = false then 1
  else
    let m1 : Rat :=
      if cfg.quickSettings.weekendMode && isWeekend c then
        1 * cfg.quickSettings.weekendMultiplier
      else 1
    let m2 : Rat := if isWorkHours cfg c then m1 * (1 / 2) else m1
    cfg.schedules.foldl
      (fun m s =>
        if s.enabled && isScheduleActive s c && s.action == "adjust_threshold" then
          m * s.thresholdMultiplier
        else m)
      m2

/-- Embedding of shouldSuppressPopups: quiet hours, or any enabled custom
rule with action disable_popups that is currently active. -/
def shouldSuppressPopups (cfg : SchedulerConfig) (c : Clock) : Bool :=
  cfg.enabled &&
    (isQuietHours cfg c ||
      cfg.schedules.any fun s =>
        s.enabled && s.action == "disable_popups" && isScheduleActive s c)

/-- Embedding of shouldBlockTracking: any enabled custom rule with action
block_tracking that is currently active. -/
def shouldBlockTracking (cfg : SchedulerConfig) (c : Clock) : Bool :=
  cfg.enabled &&
    cfg.schedules.any fun s =>
      s.enabled && s.action == "block_tracking" && isScheduleActive s c

/-- Embedding of deleteSchedule: filter out the rules with the given id and
write back only when the length changed.  Returns the source's boolean
result, the configuration as stored afterwards, and whether a storage write
happened. -/
def deleteSchedule (cfg : SchedulerConfig) (scheduleId : String) :
    Bool × SchedulerConfig × Bool :=
  let filtered := cfg.schedules.filter fun s => s.id ≠ scheduleId
  if filtered.length ≠ cfg.schedules.length then
    (true, { cfg with schedules := filtered }, true)
  else
    (false, cfg, false)

/-- Embedding of JavaScript Math.round on an exact rational: the floor of
x + 1/2 (JS rounds halves toward positive infinity). -/
def jsRound (x : Rat) : Int :=
  Rat.floor (x + 1 / 2)

/-- Embedding of the idiom value || fallback applied to a number, whose only
falsy inhabitant is 0. -/
def jsOrZero (v fallback : Int) : Int :=
  if v = 0 then fallback else v

/-- String-keyed JavaScript objects are embedded as association lists in
insertion order; lookup returns the first binding. -/
def assocLookup (key : String) : List (String × α) → Option α
  | [] => none
  | (k, v) :: rest => if k = key then some v else assocLookup key rest

/-- Assignment obj[key] = v: replace the first binding for the key, or append
a new binding, preserving insertion order as JS objects do. -/
def assocSet (key : String) (v : α) : List (String × α) → List (String × α)
  | [] => [(key, v)]
  | (k, w) :: rest =>
    if k = key then (k, v) :: rest else (k, w) :: assocSet key v rest

/-- The timeData record: day key to (domain to accumulated milliseconds). -/
def TimeData := List (String × List (String × Int))

instance : DecidableEq TimeData := by
  unfold TimeData
  infer_instance

/-- The time tracker's module-level mutable state: the active tab snapshot
and the in-memory session (currentDomain, startTime).  The source keeps these
in top-level let bindings of the tracker module; the repeating save interval
handle is host-side machinery and carries no data beyond its existence. -/
structure TrackerState where
  activeTabDomain : Option String
  activeTabTracked : Bool
  currentDomain : Option String
  startTime : Option Int
deriving DecidableEq, Repr

/-- Truthiness of the startTime variable: non-null and nonzero. -/
def timeTruthy : Option Int → Bool
  | none => false
  | some t => t != 0

/-- Embedding of getTimeSpentToday: today's ledger value for the domain plus
the running session span when that domain is the current session.  The
source returns 0 immediately when today's ledger has no (truthy) entry for
the domain, even if a session for it is running. -/
def getTimeSpentToday (td : TimeData) (st : TrackerState) (nowMs : Int)
    (today domain : String) : Int :=
  match assocLookup today td with
  | none => 0
  | some dayData =>
    match assocLookup domain dayData with
    | none => 0
    | some v =>
      if v = 0 then 0
      else
        let currentSession : Int :=
          if st.currentDomain = some domain ∧ timeTruthy st.startTime then
            nowMs - st.startTime.getD 0
          else 0
        v + currentSession

/-- Embedding of stopTracking: flush now - startTime into today's ledger
entry for the current domain (creating the day and domain entries when
absent), then clear the session.  A state with no (truthy) session is left
unchanged. -/
def stopTracking (st : TrackerState) (td : TimeData) (nowMs : Int)
    (today : String) : TrackerState × TimeData :=
  match st.currentDomain, st.startTime with
  | some domain, some t0 =>
    if t0 = 0 then (st, td)
    else
      let elapsed := nowMs - t0
      let dayData := (assocLookup today td).getD []
      let oldVal := (assocLookup domain dayData).getD 0
      let td' := assocSet today (assocSet domain (oldVal + elapsed) dayData) td
      ({ st with currentDomain := none, startTime := none }, td')
  | _, _ => (st, td)

/-- Embedding of startTracking: a no-op when the same domain is already
tracked; otherwise flush any existing session, then begin a fresh session at
the current instant. -/
def startTracking (st : TrackerState) (td : TimeData) (domain : String)
    (nowMs : Int) (today : String) : TrackerState × TimeData :=
  if st.currentDomain = some domain ∧ timeTruthy st.startTime then (st, td)
  else
    let (st1, td1) :=
      if st.currentDomain ≠ none ∧ timeTruthy st.startTime then
        stopTracking st td nowMs today
      else (st, td)
    ({ st1 with currentDomain := some domain, startTime := some nowMs }, td1)

/-- Embedding of updateActiveTab: record the active tab, then either start
tracking its domain (when the site is tracked) or stop any running session.
The repeating one-minute save timer the source registers here is host-side
scheduling and is not part of the state model.  Note that the source consults
no schedule information on this path. -/
def updateActiveTab (st : TrackerState) (td : TimeData) (domain : String)
    (isTracked : Bool) (nowMs : Int) (today : String) :
    TrackerState × TimeData :=
  let st := { st with activeTabDomain := some domain, activeTabTracked := isTracked }
  if isTracked then startTracking st td domain nowMs today
  else stopTracking st td nowMs today

/-- A goal record from the goals configuration.  notifyAt is optional in
stored data; the notification check substitutes [50, 80, 100] when it is
absent.  Fields the claims never touch (createdAt) are omitted. -/
structure Goal where
  id : String
  type : String
  target : Int
  domain : Option String
  name : String
  enabled : Bool
  notifyAt : Option (List Int)
deriving DecidableEq, Repr

/-- The stored goals configuration.  The streaks and achievements fields ride
along unchanged through the functions modelled here and are omitted. -/
structure GoalsState where
  enabled : Bool
  goals : List Goal
  history : List String
deriving DecidableEq, Repr

/-- Embedding of deleteGoal: filter out goals with the given id and write
back only when the length changed.  Returns the source's boolean result, the
configuration as stored afterwards, and whether a storage write happened. -/
def deleteGoal (gs : GoalsState) (goalId : String) : Bool × GoalsState × Bool :=
  let filtered := gs.goals.filter fun g => g.id ≠ goalId
  if filtered.length ≠ gs.goals.length then
    (true, { gs with goals := filtered }, true)
  else
    (false, gs, false)

/-- Sum of Object.values of a day's ledger, in the source's reduce order. -/
def sumValues (l : List (String × Int)) : Int :=
  l.foldl (fun s p => s + p.2) 0

/-- Embedding of the currentTime computation inside getGoalProgress, by goal
type: daily_limit and reduction sum today's ledger (or read one domain when
the goal is domain-scoped); site_limit reads today's entry for the goal's
domain; weekly_limit sums the entries of every stored day whose date is not
older than seven days ago.  Any other type leaves currentTime at 0. -/
def goalCurrentTime (goal : Goal) (td : TimeData) (c : Clock) : Int :=
  let todayData := (assocLookup c.today td).getD []
  if goal.type == "daily_limit" || goal.type == "reduction" then
    match goal.domain with
    | some d => (assocLookup d todayData).getD 0
    | none => sumValues todayData
  else if goal.type == "site_limit" then
    match goal.domain with
    | some d => (assocLookup d todayData).getD 0
    | none => 0
  else if goal.type == "weekly_limit" then
    td.foldl
      (fun acc p =>
        if c.dateValue p.1 ≥ c.weekAgoMs then
          acc +
            match goal.domain with
            | some d => (assocLookup d p.2).getD 0
            | none => sumValues p.2
        else acc)
      0
  else 0

/-- The progress record getGoalProgress returns.  The formatted display
strings are presentation only and are omitted. -/
structure GoalProgress where
  goalId : String
  goalName : String
  currentTime : Int
  targetTime : Int
  percentage : Rat
  remaining : Int
  exceeded : Bool
deriving DecidableEq, Repr

/-- Embedding of getGoalProgress: the target converted from minutes to
milliseconds, the percentage clamped by Math.min(100, ...) and then rounded
to one decimal place, the remaining time floored at 0, and the exceeded
flag currentTime > targetMs. -/
def getGoalProgress (goal : Goal) (td : TimeData) (c : Clock) : GoalProgress :=
  let currentTime := goalCurrentTime goal td c
  let targetMs := goal.target * 60 * 1000
  let percentage : Rat := min 100 ((currentTime : Rat) / (targetMs : Rat) * 100)
  { goalId := goal.id
    goalName := goal.name
    currentTime := currentTime
    targetTime := targetMs
    percentage := (jsRound (percentage * 10) : Rat) / 10
    remaining := max 0 (targetMs - currentTime)
    exceeded := decide (currentTime > targetMs) }

/-- A goal notification event as pushed by checkGoalNotifications.  The
rendered message string is presentation text and is omitted. -/
structure GoalNotif where
  goalId : String
  goalName : String
  threshold : Int
  progress : Rat
  exceeded : Bool
deriving DecidableEq, Repr

/-- The history key template goalId_threshold_today. -/
def notificationKey (goalId : String) (threshold : Int) (today : String) : String :=
  goalId ++ "_" ++ toString threshold ++ "_" ++ today

/-- The inner threshold loop of checkGoalNotifications: for each threshold
not yet in history that the percentage has reached, push a notification and
append the key to history immediately, so later iterations see it. -/
def notifyThresholds (goal : Goal) (progress : GoalProgress) (today : String) :
    List Int → List String → List GoalNotif × List String
  | [], hist => ([], hist)
  | thr :: rest, hist =>
    let key := notificationKey goal.id thr today
    if hist.contains key = false ∧ progress.percentage ≥ (thr : Rat) then
      let n : GoalNotif :=
        { goalId := goal.id
          goalName := goal.name
          threshold := thr
          progress := progress.percentage
          exceeded := progress.exceeded }
      let (ns, h) := notifyThresholds goal progress today rest (hist ++ [key])
      (n :: ns, h)
    else
      notifyThresholds goal progress today rest hist

/-- The outer goal loop of checkGoalNotifications: disabled goals are
skipped; each enabled goal's thresholds (defaulting to [50, 80, 100]) are
checked against its progress, threading the history through. -/
def notifyGoals (td : TimeData) (c : Clock) :
    List Goal → List String → List GoalNotif × List String
  | [], hist => ([], hist)
  | g :: rest, hist =>
    if g.enabled = false then notifyGoals td c rest hist
    else
      let progress := getGoalProgress g td c
      let (ns1, h1) :=
        notifyThresholds g progress c.today (g.notifyAt.getD [50, 80, 100]) hist
      let (ns2, h2) := notifyGoals td c rest h1
      (ns1 ++ ns2, h2)

/-- Embedding of checkGoalNotifications: run the goal loop, then prune the
history to its last 100 entries when it exceeds 100, and persist the updated
goals record.  Returns the notifications and the stored state. -/
def checkGoalNotifications (gs : GoalsState) (td : TimeData) (c : Clock) :
    List GoalNotif × GoalsState :=
  let (ns, hist) := notifyGoals td c gs.goals gs.history
  let hist' := if hist.length > 100 then hist.drop (hist.length - 100) else hist
  (ns, { gs with history := hist' })

/-- The smart popup threshold table of the popup configuration: minimum
elapsed milliseconds for the medium, high and veryHigh tiers.  (The low field
of the stored record never participates in the trigger check and is
omitted.) -/
structure Thresholds where
  medium : Int
  high : Int
  veryHigh : Int
deriving DecidableEq, Repr

/-- The popup repeat-interval table, one interval per tier. -/
structure Intervals where
  medium : Int
  high : Int
  veryHigh : Int
deriving DecidableEq, Repr

/-- The escalation tiers of the trigger check's threshold chain. -/
inductive Tier where
  | medium
  | high
  | veryHigh
deriving DecidableEq, Repr

/-- Embedding of the tier chain in checkPopupTrigger: veryHigh is tested
first, then high, then medium; below the medium threshold shouldPopup stays
false, rendered here as none. -/
def selectTier (th : Thresholds) (timeSpent : Int) : Option Tier :=
  if timeSpent ≥ th.veryHigh then some Tier.veryHigh
  else if timeSpent ≥ th.high then some Tier.high
  else if timeSpent ≥ th.medium then some Tier.medium
  else none

/-- The repeat interval the chain assigns to each tier. -/
def tierInterval (iv : Intervals) : Tier → Int
  | Tier.medium => iv.medium
  | Tier.high => iv.high
  | Tier.veryHigh => iv.veryHigh

/-- The fields of the stored popup configuration that checkPopupTrigger
reads.  minTimeBeforePopup and popupCooldown fall back to the defaults via
the || idiom when 0 (falsy). -/
structure PopupConfig where
  popupEnabled : Bool
  trackingPaused : Bool
  minTimeBeforePopup : Int
  popupCooldown : Int
  thresholds : Thresholds
  intervals : Intervals
deriving DecidableEq, Repr

/-- DEFAULT_CONFIG.minTimeBeforePopup, five minutes. -/
def defaultMinTimeBeforePopup : Int := 5 * 60 * 1000

/-- DEFAULT_CONFIG.popupCooldown, three minutes. -/
def defaultPopupCooldown : Int := 3 * 60 * 1000

/-- The active browser tab as checkPopupTrigger observes it: its id, whether
it has a url, whether the site matcher recognises the url, and the hostname
with a leading www. stripped. -/
structure ActiveTabInfo where
  tabId : Int
  hasUrl : Bool
  tracked : Bool
  domain : String
deriving DecidableEq, Repr

/-- Truthiness of the stored snoozeUntil combined with the comparison the
source makes: snoozeUntil && Date.now() < snoozeUntil. -/
def snoozeActive (snoozeUntil : Option Int) (nowMs : Int) : Bool :=
  match snoozeUntil with
  | none => false
  | some t => t != 0 && nowMs < t

/-- The observable effects one trigger check can emit, in program order: a
goal notification shown via the notification channel, the overlay delivery
attempt sent to the content script (whose internal notification fallback is
not a separate decision point), and the two storage writes that record the
fired intervention. -/
inductive Effect where
  | goalNotification (goalName domain : String)
  | overlayAttempt (tabId : Int) (domain : String) (timeSpent : Int)
  | writeLastPopupTime (t : Int)
  | writeLastPopupDomain (domain : String)
deriving DecidableEq, Repr

/-- Everything checkPopupTrigger reads at the start of a tick: the popup
configuration, stored snooze and last-popup records, the scheduler
configuration, the active tab, the ledger, the tracker session, the goals
record, and the clock. -/
structure TickState where
  config : PopupConfig
  snoozeUntil : Option Int
  scheduler : SchedulerConfig
  activeTab : Option ActiveTabInfo
  timeData : TimeData
  tracker : TrackerState
  lastPopupTime : Option Int
  lastPopupDomain : Option String
  goals : GoalsState
  clock : Clock

/-- What one trigger check produces: the ordered effect list and the goals
record as stored afterwards (checkGoalNotifications persists it). -/
structure TickResult where
  effects : List Effect
  goals : GoalsState
deriving DecidableEq, Repr

/-- The elapsed time checkPopupTrigger computes for the active tab's
domain. -/
def tickTimeSpent (s : TickState) (tab : ActiveTabInfo) : Int :=
  getTimeSpentToday s.timeData s.tracker s.clock.nowMs s.clock.today tab.domain

/-- The minimum time before a popup, after the stored value (0 falls back to
the default) is scaled by the threshold multiplier and rounded. -/
def tickMinTime (s : TickState) : Int :=
  jsRound
    ((jsOrZero s.config.minTimeBeforePopup defaultMinTimeBeforePopup : Rat)
      * getCurrentThresholdMultiplier s.scheduler s.clock)

/-- The early-return gauntlet of checkPopupTrigger, in source order:
popupEnabled, trackingPaused, snooze, scheduler suppression, active tab
presence, url presence, site tracked, minimum time, cooldown.  Returns the
active tab exactly when every gate passes and the tick reaches the goal and
popup logic. -/
def tickGate (s : TickState) : Option ActiveTabInfo :=
  if s.config.popupEnabled = false then none
  else if s.config.trackingPaused then none
  else if snoozeActive s.snoozeUntil s.clock.nowMs then none
  else if shouldSuppressPopups s.scheduler s.clock then none
  else
    match s.activeTab with
    | none => none
    | some tab =>
      if tab.hasUrl = false then none
      else if tab.tracked = false then none
      else if tickTimeSpent s tab < tickMinTime s then none
      else if s.lastPopupDomain = some tab.domain ∧
          s.clock.nowMs - s.lastPopupTime.getD 0
            < jsOrZero s.config.popupCooldown defaultPopupCooldown then none
      else some tab

/-- The part of checkPopupTrigger past the gates: goal notifications are
checked and shown first, then the tier chain decides the popup; on a fire
the overlay delivery attempt precedes the two storage writes recording it. -/
def tickBody (s : TickState) (tab : ActiveTabInfo) : TickResult :=
  let domain := tab.domain
  let timeSpent := tickTimeSpent s tab
  let gr := checkGoalNotifications s.goals s.timeData s.clock
  let goalEffects := gr.1.map fun n => Effect.goalNotification n.goalName domain
  let popupEffects :=
    match selectTier s.config.thresholds timeSpent with
    | none => []
    | some tr =>
      let interval := tierInterval s.config.intervals tr
      if s.clock.nowMs - s.lastPopupTime.getD 0 ≥ interval ∨
          s.lastPopupDomain ≠ some domain then
        [Effect.overlayAttempt tab.tabId domain timeSpent,
         Effect.writeLastPopupTime s.clock.nowMs,
         Effect.writeLastPopupDomain domain]
      else []
  ⟨goalEffects ++ popupEffects, gr.2⟩

/-- Embedding of checkPopupTrigger, the dispatcher tick.  Every early return
of the source produces no effects and leaves the goals record untouched;
past the gates the body runs.  The several Date.now() samples of one tick
are embedded as the single instant clock.nowMs. -/
def checkPopupTrigger (s : TickState) : TickResult :=
  match tickGate s with
  | none => ⟨[], s.goals⟩
  | some tab => tickBody s tab

/-! Helper lemmas shared by several claims. -/

/-- A time range whose start equals its end is empty, in both branches of
the wraparound test. -/
theorem isWithinTimeRange_self (t : TimeHM) (m : Nat) :
    isWithinTimeRange t t m = false := by
  simp [isWithinTimeRange]

/-- A schedule rule whose start equals its end is never active. -/
theorem isScheduleActive_of_start_eq_end (r : ScheduleRule) (c : Clock)
    (h : r.startTime = r.endTime) : isScheduleActive r c = false := by
  rw [isScheduleActive, ← h, isWithinTimeRange_self, Bool.and_false]

/-- Folding a guarded multiplication over a list equals the initial value
times the product of the images of the elements passing the guard. -/
theorem foldl_guarded_mul (p : α → Bool) (f : α → Rat) (l : List α) (init : Rat) :
    l.foldl (fun m s => if p s then m * f s else m) init
      = init * ((l.filter p).map f).prod := by
  induction l generalizing init with
  | nil => simp
  | cons a l ih =>
    by_cases hp : p a = true
    · simp [hp, ih, mul_assoc]
    · simp only [Bool.not_eq_true] at hp
      simp [hp, ih]

/-- In a list whose images under f are pairwise distinct, an element hitting
the key k is unique: the filter by f a = k has exactly one element. -/
theorem length_filter_eq_one_of_nodup_map (f : α → String) (l : List α) (k : String)
    (h : (l.map f).Nodup) (hx : ∃ a ∈ l, f a = k) :
    (l.filter fun a => f a = k).length = 1 := by
  induction l with
  | nil => simp at hx
  | cons a l ih =>
    simp only [List.map_cons, List.nodup_cons, List.mem_map] at h
    by_cases ha : f a = k
    · have hnone : ∀ b ∈ l, ¬(f b = k) := by
        intro b hb hbk
        exact h.1 ⟨b, hb, by rw [hbk, ha]⟩
      have : l.filter (fun a => f a = k) = [] := by
        rw [List.filter_eq_nil_iff]
        intro b hb
        simpa using hnone b hb
      simp [ha, this]
    · obtain ⟨b, hb, hbk⟩ := hx
      rcases List.mem_cons.mp hb with rfl | hbl
      · exact absurd hbk ha
      · simpa [ha] using ih h.2 ⟨b, hbl, hbk⟩

/-! Claim theorems. -/

/-- C9: a schedule rule or quick setting whose startTime equals its endTime
has an empty time window: the rule is never active, adding it changes
neither popup suppression nor tracking blocking nor the threshold
multiplier, and quiet-hours/work-hours quick settings with equal bounds are
never in effect. -/
theorem empty_window_rule_never_applies (r : ScheduleRule) (cfg : SchedulerConfig)
    (c : Clock) (h : r.startTime = r.endTime) :
    isScheduleActive r c = false
    ∧ shouldSuppressPopups { cfg with schedules := r :: cfg.schedules } c
        = shouldSuppressPopups cfg c
    ∧ shouldBlockTracking { cfg with schedules := r :: cfg.schedules } c
        = shouldBlockTracking cfg c
    ∧ getCurrentThresholdMultiplier { cfg with schedules := r :: cfg.schedules } c
        = getCurrentThresholdMultiplier cfg c
    ∧ (cfg.quickSettings.quietHoursStart = cfg.quickSettings.quietHoursEnd →
        isQuietHours cfg c = false)
    ∧ (cfg.quickSettings.workHoursStart = cfg.quickSettings.workHoursEnd →
        isWorkHours cfg c = false) := by
  have hact := isScheduleActive_of_start_eq_end r c h
  refine ⟨hact, ?_, ?_, ?_, ?_, ?_⟩
  · simp [shouldSuppressPopups, isQuietHours, hact]
  · simp [shouldBlockTracking, hact]
  · simp [getCurrentThresholdMultiplier, isWorkHours, isWeekend, hact]
  · intro hq
    simp [isQuietHours, ← hq, isWithinTimeRange_self]
  · intro hw
    simp [isWorkHours, ← hw, isWithinTimeRange_self]

/-- Closed instance of C9 at a concrete 09:00 to 09:00 disable_popups rule:
it is inactive and affects none of the scheduler outputs. -/
theorem empty_window_rule_never_applies_witness :
    isScheduleActive
        { id := "r1", enabled := true, startTime := ⟨9, 0⟩, endTime := ⟨9, 0⟩,
          days := [0, 1, 2, 3, 4, 5, 6], action := "disable_popups",
          thresholdMultiplier := 2 }
        { nowMs := 0, minutesOfDay := 540, dayOfWeek := 3, today := "d",
          weekAgoMs := 0, dateValue := fun _ => 0 } = false :=
  (empty_window_rule_never_applies
    { id := "r1", enabled := true, startTime := ⟨9, 0⟩, endTime := ⟨9, 0⟩,
      days := [0, 1, 2, 3, 4, 5, 6], action := "disable_popups",
      thresholdMultiplier := 2 }
    { enabled := true, schedules := [],
      quickSettings :=
        { quietHoursEnabled := false, quietHoursStart := ⟨22, 0⟩,
          quietHoursEnd := ⟨8, 0⟩, workHoursEnabled := false,
          workHoursStart := ⟨9, 0⟩, workHoursEnd := ⟨17, 0⟩,
          workDays := [1, 2, 3, 4, 5], weekendMode := false,
          weekendMultiplier := 3 / 2 } }
    { nowMs := 0, minutesOfDay := 540, dayOfWeek := 3, today := "d",
      weekAgoMs := 0, dateValue := fun _ => 0 }
    rfl).1

/-- C7: with the scheduler enabled, the threshold multiplier is exactly the
product of the weekend factor (only on Saturday or Sunday with weekend mode
on), the fixed 0.5 work-hours factor, and the thresholdMultiplier of every
enabled, currently active adjust_threshold rule; each absent factor
contributes 1, so with no active factor the multiplier is 1. -/
theorem multiplier_is_ordered_product (cfg : SchedulerConfig) (c : Clock)
    (h : cfg.enabled = true) :
    getCurrentThresholdMultiplier cfg c =
      (if cfg.quickSettings.weekendMode && isWeekend c then
          cfg.quickSettings.weekendMultiplier
        else 1)
      * (if isWorkHours cfg c then (1 : Rat) / 2 else 1)
      * ((cfg.schedules.filter fun s =>
            s.enabled && isScheduleActive s c && s.action == "adjust_threshold").map
          ScheduleRule.thresholdMultiplier).prod := by
  rw [getCurrentThresholdMultiplier, if_neg (by simp [h]), foldl_guarded_mul]
  split_ifs <;> ring

/-- Closed instance of C7: Saturday with weekend mode (multiplier 3/2), work
hours off, and one active adjust_threshold rule with multiplier 2 compose to
exactly 3. -/
theorem multiplier_is_ordered_product_witness :
    getCurrentThresholdMultiplier
        { enabled := true,
          schedules :=
            [{ id := "a1", enabled := true, startTime := ⟨0, 0⟩,
               endTime := ⟨23, 59⟩, days := [0, 1, 2, 3, 4, 5, 6],
               action := "adjust_threshold", thresholdMultiplier := 2 }],
          quickSettings :=
            { quietHoursEnabled := false, quietHoursStart := ⟨22, 0⟩,
              quietHoursEnd := ⟨8, 0⟩, workHoursEnabled := false,
              workHoursStart := ⟨9, 0⟩, workHoursEnd := ⟨17, 0⟩,
              workDays := [1, 2, 3, 4, 5], weekendMode := true,
              weekendMultiplier := 3 / 2 } }
        { nowMs := 0, minutesOfDay := 600, dayOfWeek := 6, today := "d",
          weekAgoMs := 0, dateValue := fun _ => 0 } = 3 := by
  rw [multiplier_is_ordered_product _ _ rfl]
  norm_num [isWeekend, isWorkHours, isScheduleActive, isWithinTimeRange, TimeHM.toMinutes]

/-- C10: when a goal with the given id exists (ids being unique),
deleteGoal returns true and persists the list with exactly that goal
removed; when none matches it returns false and performs no write, leaving
the stored record unchanged; deleteSchedule behaves identically on schedule
rules. -/
theorem delete_removes_exactly_match_or_noop (gs : GoalsState)
    (cfg : SchedulerConfig) (gid sid : String)
    (hg : (gs.goals.map Goal.id).Nodup)
    (hs : (cfg.schedules.map ScheduleRule.id).Nodup) :
    ((∃ g ∈ gs.goals, g.id = gid) →
      deleteGoal gs gid
          = (true, { gs with goals := gs.goals.filter fun g => g.id ≠ gid }, true)
        ∧ (gs.goals.filter fun g => g.id = gid).length = 1)
    ∧ ((∀ g ∈ gs.goals, g.id ≠ gid) → deleteGoal gs gid = (false, gs, false))
    ∧ ((∃ r ∈ cfg.schedules, r.id = sid) →
      deleteSchedule cfg sid
          = (true, { cfg with schedules := cfg.schedules.filter fun s => s.id ≠ sid },
             true)
        ∧ (cfg.schedules.filter fun s => s.id = sid).length = 1)
    ∧ ((∀ r ∈ cfg.schedules, r.id ≠ sid) →
        deleteSchedule cfg sid = (false, cfg, false)) := by
  have lenlt : ∀ (l : List Goal), (∃ g ∈ l, g.id = gid) →
      (l.filter fun g => g.id ≠ gid).length ≠ l.length := by
    intro l hx h
    rw [List.filter_length_eq_length] at h
    obtain ⟨g, hgl, hgid⟩ := hx
    have := h g hgl
    simp [hgid] at this
  have lenlt2 : ∀ (l : List ScheduleRule), (∃ r ∈ l, r.id = sid) →
      (l.filter fun s => s.id ≠ sid).length ≠ l.length := by
    intro l hx h
    rw [List.filter_length_eq_length] at h
    obtain ⟨r, hrl, hrid⟩ := hx
    have := h r hrl
    simp [hrid] at this
  refine ⟨?_, ?_, ?_, ?_⟩
  · intro hx
    refine ⟨?_, length_filter_eq_one_of_nodup_map Goal.id gs.goals gid hg hx⟩
    simp only [deleteGoal]
    rw [if_pos (lenlt gs.goals hx)]
  · intro hnone
    have hfix : gs.goals.filter (fun g => g.id ≠ gid) = gs.goals := by
      rw [List.filter_eq_self]
      intro x hx
      exact decide_eq_true (hnone x hx)
    simp only [deleteGoal, hfix]
    simp
  · intro hx
    refine ⟨?_, length_filter_eq_one_of_nodup_map ScheduleRule.id cfg.schedules sid hs hx⟩
    simp only [deleteSchedule]
    rw [if_pos (lenlt2 cfg.schedules hx)]
  · intro hnone
    have hfix : cfg.schedules.filter (fun s => s.id ≠ sid) = cfg.schedules := by
      rw [List.filter_eq_self]
      intro x hx
      exact decide_eq_true (hnone x hx)
    simp only [deleteSchedule, hfix]
    simp

/-- A two-goal record used to exercise deleteGoal. -/
def gsDeleteFixture : GoalsState where
  enabled := true
  goals :=
    [{ id := "g1", type := "daily_limit", target := 60, domain := none,
       name := "A", enabled := true, notifyAt := some [50, 80, 100] },
     { id := "g2", type := "site_limit", target := 30, domain := some "x.com",
       name := "B", enabled := true, notifyAt := none }]
  history := []

/-- A one-rule scheduler configuration used to exercise deleteSchedule. -/
def cfgDeleteFixture : SchedulerConfig where
  enabled := true
  schedules :=
    [{ id := "s1", enabled := true, startTime := ⟨9, 0⟩, endTime := ⟨17, 0⟩,
       days := [1], action := "disable_popups", thresholdMultiplier := 1 }]
  quickSettings :=
    { quietHoursEnabled := false, quietHoursStart := ⟨22, 0⟩,
      quietHoursEnd := ⟨8, 0⟩, workHoursEnabled := false,
      workHoursStart := ⟨9, 0⟩, workHoursEnd := ⟨17, 0⟩,
      workDays := [1, 2, 3, 4, 5], weekendMode := false,
      weekendMultiplier := 3 / 2 }

/-- Closed instance of C10: deleting g1 removes exactly it and writes;
deleting an unknown schedule id returns false without a write. -/
theorem delete_removes_exactly_match_or_noop_witness :
    deleteGoal gsDeleteFixture "g1"
      = (true,
         { gsDeleteFixture with
             goals := gsDeleteFixture.goals.filter fun g => g.id ≠ "g1" }, true)
    ∧ deleteSchedule cfgDeleteFixture "zz" = (false, cfgDeleteFixture, false) := by
  have h := delete_removes_exactly_match_or_noop gsDeleteFixture cfgDeleteFixture
    "g1" "zz" (by decide) (by decide)
  exact ⟨(h.1 (by decide)).1, h.2.2.2 (by decide)⟩

/-- The specification's getElapsedToday, written from the spec's words for
comparison with the source's getTimeSpentToday: today's ledger value for the
domain (0 if absent) plus now - start when the domain is the active
session's domain, else no extra. -/
def specElapsedToday (td : TimeData) (st : TrackerState) (nowMs : Int)
    (today domain : String) : Int :=
  let ledgerValue :=
    match assocLookup today td with
    | none => 0
    | some dayData => (assocLookup domain dayData).getD 0
  let sessionExtra :=
    match st.currentDomain, st.startTime with
    | some d, some t0 => if d = domain then nowMs - t0 else 0
    | _, _ => 0
  ledgerValue + sessionExtra

/-- C2, counterexample: with an empty ledger and an active session for
x.com begun at 1000, a read at 61000 returns 0, not the in-progress 60000
the claim requires (the source returns 0 outright when today's ledger has
no entry for the domain). -/
theorem active_session_invisible_without_ledger_entry :
    getTimeSpentToday []
        { activeTabDomain := none, activeTabTracked := true,
          currentDomain := some "x.com", startTime := some 1000 }
        61000 "d" "x.com" = 0
    ∧ specElapsedToday []
        { activeTabDomain := none, activeTabTracked := true,
          currentDomain := some "x.com", startTime := some 1000 }
        61000 "d" "x.com" = 60000 := by
  decide

/-- C2 as amended: getTimeSpentToday returns the ledger value plus the
running session span only when today's ledger holds a nonzero entry for the
domain; when the entry is absent (or stored as 0) it returns 0 even if a
session for the domain is active.  Reads stay pure: the embedding returns a
value and touches no state. -/
theorem getTimeSpentToday_ledger_gated (td : TimeData) (st : TrackerState)
    (nowMs : Int) (today domain : String) :
    (∀ v, (assocLookup today td).bind (assocLookup domain) = some v → v ≠ 0 →
      getTimeSpentToday td st nowMs today domain
        = v + (if st.currentDomain = some domain ∧ timeTruthy st.startTime then
             nowMs - st.startTime.getD 0
           else 0))
    ∧ ((assocLookup today td).bind (assocLookup domain) = none ∨
        (assocLookup today td).bind (assocLookup domain) = some 0 →
        getTimeSpentToday td st nowMs today domain = 0) := by
  constructor
  · intro v hv hv0
    cases hday : assocLookup today td with
    | none => rw [hday] at hv; simp at hv
    | some dayData =>
      rw [hday] at hv
      simp only [Option.some_bind] at hv
      simp [getTimeSpentToday, hday, hv, hv0]
  · intro h
    cases hday : assocLookup today td with
    | none => simp [getTimeSpentToday, hday]
    | some dayData =>
      rw [hday] at h
      simp only [Option.some_bind] at h
      rcases h with h | h <;> simp [getTimeSpentToday, hday, h]

/-- Closed instance of the amended C2: ledger entry 5000 for x.com plus a
session begun at 1000 read at 61000 yields 65000. -/
theorem getTimeSpentToday_ledger_gated_witness :
    getTimeSpentToday [("d", [("x.com", 5000)])]
        { activeTabDomain := none, activeTabTracked := true,
          currentDomain := some "x.com", startTime := some 1000 }
        61000 "d" "x.com" = 65000 := by
  have h := (getTimeSpentToday_ledger_gated [("d", [("x.com", 5000)])]
    { activeTabDomain := none, activeTabTracked := true,
      currentDomain := some "x.com", startTime := some 1000 }
    61000 "d" "x.com").1 5000 (by decide) (by decide)
  rw [h]
  decide

/-- One row of the tier table the specification describes: an escalation
tier with its minimum elapsed time and repeat interval. -/
structure TierEntry where
  tier : Tier
  minElapsed : Int
  interval : Int
deriving DecidableEq, Repr

/-- The configured tier table as an ascending list, the specification's
presentation of the thresholds/intervals records. -/
def tierTable (th : Thresholds) (iv : Intervals) : List TierEntry :=
  [⟨Tier.medium, th.medium, iv.medium⟩,
   ⟨Tier.high, th.high, iv.high⟩,
   ⟨Tier.veryHigh, th.veryHigh, iv.veryHigh⟩]

/-- A selected tier always has its medium threshold at or below the elapsed
time, provided the table is ascending. -/
theorem selectTier_medium_le (th : Thresholds) (t : Int) (tr : Tier)
    (h1 : th.medium ≤ th.high) (h2 : th.high ≤ th.veryHigh)
    (h : selectTier th t = some tr) : th.medium ≤ t := by
  rw [selectTier] at h
  split_ifs at h with hv hh hm <;> omega

/-- C6: with an ascending tier table, the trigger check's tier chain picks
exactly the first entry, scanning from the highest minElapsed downward,
whose minElapsed is at or below the elapsed time, together with that tier's
interval; below the lowest minElapsed no tier is selected, and no tick ever
emits an overlay delivery whose elapsed time is below the medium
threshold. -/
theorem tier_selection_highest_first (th : Thresholds) (iv : Intervals) (t : Int)
    (h1 : th.medium ≤ th.high) (h2 : th.high ≤ th.veryHigh) :
    ((selectTier th t).map fun tr => (tr, tierInterval iv tr))
      = (((tierTable th iv).reverse.find? fun e => decide (e.minElapsed ≤ t)).map
          fun e => (e.tier, e.interval))
    ∧ (t < th.medium → selectTier th t = none)
    ∧ (∀ (s : TickState) (tabId : Int) (dom : String) (ts : Int),
        s.config.thresholds = th →
        Effect.overlayAttempt tabId dom ts ∈ (checkPopupTrigger s).effects →
        th.medium ≤ ts) := by
  refine ⟨?_, ?_, ?_⟩
  · by_cases hv : t ≥ th.veryHigh
    · simp [selectTier, tierTable, tierInterval, List.find?, hv]
    · by_cases hh : t ≥ th.high
      · simp [selectTier, tierTable, tierInterval, List.find?, hv, hh]
      · by_cases hm : t ≥ th.medium
        · simp [selectTier, tierTable, tierInterval, List.find?, hv, hh, hm]
        · simp [selectTier, tierTable, tierInterval, List.find?, hv, hh, hm]
  · intro hm
    have hmm : ¬t ≥ th.medium := by omega
    have hh : ¬t ≥ th.high := by omega
    have hv : ¬t ≥ th.veryHigh := by omega
    simp [selectTier, hv, hh, hmm]
  · intro s tabId dom ts hth hmem
    rw [checkPopupTrigger] at hmem
    cases hg : tickGate s with
    | none => rw [hg] at hmem; simp at hmem
    | some tab =>
      rw [hg] at hmem
      unfold tickBody at hmem
      simp only [List.mem_append] at hmem
      rcases hmem with hmem | hmem
      · simp at hmem
      · rcases hsel : selectTier s.config.thresholds (tickTimeSpent s tab) with _ | tr
        · rw [hsel] at hmem; simp at hmem
        · rw [hsel] at hmem
          rw [hth] at hsel
          have hle := selectTier_medium_le th (tickTimeSpent s tab) tr h1 h2 hsel
          simp at hmem
          obtain ⟨-, -, -, hts⟩ := hmem
          omega

/-- Scenario A thresholds: medium at 15 minutes, high at 30 minutes,
veryHigh far out of reach (the stored default is Infinity). -/
def thScenarioA : Thresholds := ⟨900000, 1800000, 1000000000000⟩

/-- Scenario A intervals: the medium tier repeats every 10 minutes. -/
def ivScenarioA : Intervals := ⟨600000, 300000, 180000⟩

/-- Closed instance of C6 at Scenario A: 16 minutes elapsed selects the
medium tier with its 10-minute interval, and an elapsed below 15 minutes
selects no tier. -/
theorem tier_selection_highest_first_witness :
    ((selectTier thScenarioA 960000).map fun tr => (tr, tierInterval ivScenarioA tr))
        = some (Tier.medium, 600000)
    ∧ selectTier thScenarioA 800000 = none := by
  have h := tier_selection_highest_first thScenarioA ivScenarioA 960000
    (by decide) (by decide)
  have h2 := tier_selection_highest_first thScenarioA ivScenarioA 800000
    (by decide) (by decide)
  refine ⟨?_, h2.2.1 (by decide)⟩
  rw [h.1]
  decide

/-- Scheduler configuration with quiet hours 22:00 to 08:00 enabled. -/
def schedQuiet : SchedulerConfig where
  enabled := true
  schedules := []
  quickSettings :=
    { quietHoursEnabled := true, quietHoursStart := ⟨22, 0⟩,
      quietHoursEnd := ⟨8, 0⟩, workHoursEnabled := false,
      workHoursStart := ⟨9, 0⟩, workHoursEnd := ⟨17, 0⟩,
      workDays := [1, 2, 3, 4, 5], weekendMode := false,
      weekendMultiplier := 3 / 2 }

/-- A clock reading 23:00 on a Wednesday, with one hour of epoch time on the
ledger day d. -/
def clockScenarioC : Clock where
  nowMs := 100000000
  minutesOfDay := 1380
  dayOfWeek := 3
  today := "d"
  weekAgoMs := 0
  dateValue := fun _ => 0

/-- Scenario C tick state: quiet hours active at 23:00, one hour of x.com on
today's ledger (past every threshold), and an enabled one-minute daily goal
at its 100 percent threshold that has never been notified. -/
def sScenarioC : TickState where
  config :=
    { popupEnabled := true, trackingPaused := false,
      minTimeBeforePopup := 300000, popupCooldown := 180000,
      thresholds := thScenarioA, intervals := ivScenarioA }
  snoozeUntil := none
  scheduler := schedQuiet
  activeTab := some ⟨1, true, true, "x.com"⟩
  timeData := [("d", [("x.com", 3600000)])]
  tracker :=
    { activeTabDomain := some "x.com", activeTabTracked := true,
      currentDomain := none, startTime := none }
  lastPopupTime := none
  lastPopupDomain := none
  goals :=
    { enabled := true,
      goals :=
        [{ id := "g1", type := "daily_limit", target := 1, domain := none,
           name := "G", enabled := true, notifyAt := some [100] }],
      history := [] }
  clock := clockScenarioC

unseal Rat.add Rat.mul Rat.inv Rat.sub in
/-- C1, counterexample: in Scenario C the quiet-hours suppression is active
and a goal notification is due (a direct goal check would emit one), yet the
tick emits nothing at all: the source returns from checkPopupTrigger at the
suppression gate before the goal check is ever reached. -/
theorem suppression_also_silences_goal_notifications_cex :
    shouldSuppressPopups sScenarioC.scheduler sScenarioC.clock = true
    ∧ (checkGoalNotifications sScenarioC.goals sScenarioC.timeData
        sScenarioC.clock).1 ≠ []
    ∧ (checkPopupTrigger sScenarioC).effects = [] := by
  decide

/-- C1 as amended: whenever scheduler suppression is active the tick stops
entirely before the goal check: it emits no effect of any kind, goal
notifications included, and leaves the stored goals record (with its
notification history) untouched. -/
theorem suppressed_tick_emits_nothing (s : TickState)
    (h : shouldSuppressPopups s.scheduler s.clock = true) :
    checkPopupTrigger s = ⟨[], s.goals⟩ := by
  have hg : tickGate s = none := by
    unfold tickGate
    split_ifs <;> rfl
  rw [checkPopupTrigger, hg]

/-- Closed instance of the amended C1 at the Scenario C state. -/
theorem suppressed_tick_emits_nothing_witness :
    checkPopupTrigger sScenarioC = ⟨[], sScenarioC.goals⟩ :=
  suppressed_tick_emits_nothing sScenarioC (by decide)

/-- Walks an effect list tracking whether the lastInterventionTime and
lastInterventionDomain writes have been seen, demanding both before any
overlay delivery attempt. -/
def recordPrecedesDeliveryAux : Bool → Bool → List Effect → Bool
  | _, _, [] => true
  | wt, wd, Effect.overlayAttempt _ _ _ :: rest =>
    wt && wd && recordPrecedesDeliveryAux wt wd rest
  | _, wd, Effect.writeLastPopupTime _ :: rest =>
    recordPrecedesDeliveryAux true wd rest
  | wt, _, Effect.writeLastPopupDomain _ :: rest =>
    recordPrecedesDeliveryAux wt true rest
  | wt, wd, Effect.goalNotification _ _ :: rest =>
    recordPrecedesDeliveryAux wt wd rest

/-- The ordering the claim asserts of one tick's effect trace: both
intervention-state writes happen before any delivery attempt is started. -/
def recordPrecedesDelivery (es : List Effect) : Bool :=
  recordPrecedesDeliveryAux false false es

/-- A tick state that accepts a popup fire: scheduler disabled, one hour of
x.com on today's ledger, no prior intervention, no goals. -/
def sFire : TickState where
  config :=
    { popupEnabled := true, trackingPaused := false,
      minTimeBeforePopup := 300000, popupCooldown := 180000,
      thresholds := thScenarioA, intervals := ivScenarioA }
  snoozeUntil := none
  scheduler :=
    { enabled := false, schedules := [],
      quickSettings :=
        { quietHoursEnabled := false, quietHoursStart := ⟨22, 0⟩,
          quietHoursEnd := ⟨8, 0⟩, workHoursEnabled := false,
          workHoursStart := ⟨9, 0⟩, workHoursEnd := ⟨17, 0⟩,
          workDays := [1, 2, 3, 4, 5], weekendMode := false,
          weekendMultiplier := 3 / 2 } }
  activeTab := some ⟨1, true, true, "x.com"⟩
  timeData := [("d", [("x.com", 3600000)])]
  tracker :=
    { activeTabDomain := some "x.com", activeTabTracked := true,
      currentDomain := none, startTime := none }
  lastPopupTime := none
  lastPopupDomain := none
  goals := { enabled := true, goals := [], history := [] }
  clock := clockScenarioC

unseal Rat.add Rat.mul Rat.inv Rat.sub in
/-- C3, counterexample: on an accepted fire the source calls triggerPopup
first and writes lastPopupTime/lastPopupDomain afterwards, so the trace
starts with the delivery attempt and the claim's write-before-delivery
ordering is violated. -/
theorem record_before_delivery_cex :
    (checkPopupTrigger sFire).effects
        = [Effect.overlayAttempt 1 "x.com" 3600000,
           Effect.writeLastPopupTime 100000000,
           Effect.writeLastPopupDomain "x.com"]
    ∧ recordPrecedesDelivery (checkPopupTrigger sFire).effects = false := by
  decide

/-- C3 as amended: on every tick that accepts a popup fire the two
intervention-state writes happen immediately after the delivery attempt is
started, never before it; the only other effects a tick emits are goal
notifications. -/
theorem writes_follow_delivery (s : TickState) :
    ∃ gE pE, (checkPopupTrigger s).effects = gE ++ pE
      ∧ (∀ e ∈ gE, ∃ n d, e = Effect.goalNotification n d)
      ∧ (pE = []
         ∨ ∃ tabId dom ts, pE =
            [Effect.overlayAttempt tabId dom ts,
             Effect.writeLastPopupTime s.clock.nowMs,
             Effect.writeLastPopupDomain dom]) := by
  rw [checkPopupTrigger]
  cases hg : tickGate s with
  | none => exact ⟨[], [], by simp, by simp, Or.inl rfl⟩
  | some tab =>
    unfold tickBody
    refine ⟨_, _, rfl, ?_, ?_⟩
    · intro e he
      simp only [List.mem_map] at he
      obtain ⟨n, _, rfl⟩ := he
      exact ⟨_, _, rfl⟩
    · cases selectTier s.config.thresholds (tickTimeSpent s tab) with
      | none => exact Or.inl rfl
      | some tr =>
        dsimp only
        by_cases hfire : s.clock.nowMs - s.lastPopupTime.getD 0
              ≥ tierInterval s.config.intervals tr
            ∨ s.lastPopupDomain ≠ some tab.domain
        · rw [if_pos hfire]
          exact Or.inr ⟨tab.tabId, tab.domain, tickTimeSpent s tab, rfl⟩
        · rw [if_neg hfire]
          exact Or.inl rfl

unseal Rat.add Rat.mul Rat.inv Rat.sub in
/-- Closed instance of the amended C3 at the accepting state sFire. -/
theorem writes_follow_delivery_witness :
    ∃ gE pE, (checkPopupTrigger sFire).effects = gE ++ pE
      ∧ (∀ e ∈ gE, ∃ n d, e = Effect.goalNotification n d)
      ∧ (pE = []
         ∨ ∃ tabId dom ts, pE =
            [Effect.overlayAttempt tabId dom ts,
             Effect.writeLastPopupTime sFire.clock.nowMs,
             Effect.writeLastPopupDomain dom]) :=
  writes_follow_delivery sFire

/-- An enabled block_tracking rule covering the whole week from 00:00 to
23:59. -/
def rBlock : ScheduleRule where
  id := "b1"
  enabled := true
  startTime := ⟨0, 0⟩
  endTime := ⟨23, 59⟩
  days := [0, 1, 2, 3, 4, 5, 6]
  action := "block_tracking"
  thresholdMultiplier := 1

/-- Scheduler configuration holding only the block rule. -/
def schedBlock : SchedulerConfig where
  enabled := true
  schedules := [rBlock]
  quickSettings :=
    { quietHoursEnabled := false, quietHoursStart := ⟨22, 0⟩,
      quietHoursEnd := ⟨8, 0⟩, workHoursEnabled := false,
      workHoursStart := ⟨9, 0⟩, workHoursEnd := ⟨17, 0⟩,
      workDays := [1, 2, 3, 4, 5], weekendMode := false,
      weekendMultiplier := 3 / 2 }

unseal Rat.add Rat.mul Rat.inv Rat.sub in
/-- C4, counterexample: with the block rule active (shouldBlockTracking is
true all day), a tracked tab still starts a session, a flush still
accumulates its 60 seconds into the ledger, and the dispatcher tick on the
same clock still walks the popup path and fires — the blocked window is not
inert in the source. -/
theorem blocked_window_not_inert_cex :
    shouldBlockTracking schedBlock clockScenarioC = true
    ∧ (updateActiveTab
        { activeTabDomain := none, activeTabTracked := false,
          currentDomain := none, startTime := none }
        [] "x.com" true 1000 "d").1.currentDomain = some "x.com"
    ∧ (stopTracking
        (updateActiveTab
          { activeTabDomain := none, activeTabTracked := false,
            currentDomain := none, startTime := none }
          [] "x.com" true 1000 "d").1
        [] 61000 "d").2 = [("d", [("x.com", 60000)])]
    ∧ (checkPopupTrigger { sFire with scheduler := schedBlock }).effects ≠ [] := by
  decide

/-- C4 as amended: shouldBlockTracking reports whether an enabled
block_tracking rule is active, but nothing consumes it on the tracking or
dispatch paths: adding any block_tracking rule to the configuration leaves
the entire tick result unchanged (and the session tracker takes no schedule
input at all), so time accumulates and popups fire during blocked
windows. -/
theorem block_rules_invisible_to_tick (s : TickState) (r : ScheduleRule)
    (hr : r.action = "block_tracking") :
    checkPopupTrigger
        { s with scheduler :=
            { s.scheduler with schedules := r :: s.scheduler.schedules } }
      = checkPopupTrigger s := by
  have hsup : shouldSuppressPopups
      { s.scheduler with schedules := r :: s.scheduler.schedules } s.clock
      = shouldSuppressPopups s.scheduler s.clock := by
    simp [shouldSuppressPopups, isQuietHours, hr]
  have hmul : getCurrentThresholdMultiplier
      { s.scheduler with schedules := r :: s.scheduler.schedules } s.clock
      = getCurrentThresholdMultiplier s.scheduler s.clock := by
    simp [getCurrentThresholdMultiplier, isWorkHours, isWeekend, hr]
  have hg : tickGate
      { s with scheduler :=
          { s.scheduler with schedules := r :: s.scheduler.schedules } }
      = tickGate s := by
    unfold tickGate tickMinTime tickTimeSpent
    dsimp only
    rw [hsup, hmul]
  rw [checkPopupTrigger, checkPopupTrigger, hg]
  cases tickGate s with
  | none => rfl
  | some tab => rfl

/-- Closed instance of the amended C4: adding the block rule to the firing
state changes nothing about the tick. -/
theorem block_rules_invisible_to_tick_witness :
    checkPopupTrigger
        { sFire with scheduler :=
            { sFire.scheduler with schedules := rBlock :: sFire.scheduler.schedules } }
      = checkPopupTrigger sFire :=
  block_rules_invisible_to_tick sFire rBlock rfl

/-- The percentage a goal progress record carries is clamped: Math.min caps
the raw ratio at 100 before the one-decimal rounding, and rounding cannot
push it past 100. -/
theorem getGoalProgress_percentage_le (goal : Goal) (td : TimeData) (c : Clock) :
    (getGoalProgress goal td c).percentage ≤ 100 := by
  rw [getGoalProgress]
  dsimp only
  set q : Rat :=
    min 100 ((goalCurrentTime goal td c : Rat)
      / ((goal.target * 60 * 1000 : Int) : Rat) * 100) with hq
  have hq100 : q ≤ 100 := min_le_left _ _
  have hfl : (jsRound (q * 10) : Int) ≤ 1000 := by
    rw [show jsRound (q * 10) = ⌊q * 10 + 1 / 2⌋ from rfl, Int.floor_le_iff]
    push_cast
    linarith
  have : ((jsRound (q * 10) : Int) : Rat) ≤ 1000 := by exact_mod_cast hfl
  linarith

/-- Every notification the threshold loop pushes carries the progress record
it was checked against, and its threshold lies at or below that
percentage. -/
theorem notifyThresholds_mem (goal : Goal) (progress : GoalProgress)
    (today : String) :
    ∀ (thrs : List Int) (hist : List String) (n : GoalNotif),
      n ∈ (notifyThresholds goal progress today thrs hist).1 →
      (n.threshold : Rat) ≤ progress.percentage := by
  intro thrs
  induction thrs with
  | nil => intro hist n hn; simp [notifyThresholds] at hn
  | cons thr rest ih =>
    intro hist n hn
    rw [notifyThresholds] at hn
    split at hn
    · next hcond =>
      simp only [List.mem_cons] at hn
      rcases hn with rfl | hn
      · exact hcond.2
      · exact ih _ n hn
    · exact ih _ n hn

/-- Every notification the goal loop emits has its threshold at or below
100: the loop only notifies thresholds the clamped percentage has
reached. -/
theorem notifyGoals_threshold_le (td : TimeData) (c : Clock) :
    ∀ (goals : List Goal) (hist : List String) (n : GoalNotif),
      n ∈ (notifyGoals td c goals hist).1 → (n.threshold : Rat) ≤ 100 := by
  intro goals
  induction goals with
  | nil => intro hist n hn; simp [notifyGoals] at hn
  | cons g rest ih =>
    intro hist n hn
    rw [notifyGoals] at hn
    split at hn
    · exact ih _ n hn
    · simp only [List.mem_append] at hn
      rcases hn with hn | hn
      · exact le_trans (notifyThresholds_mem g _ c.today _ _ n hn)
          (getGoalProgress_percentage_le g td c)
      · exact ih _ n hn

/-- A goal whose clamped ratio is 100 percent against a one-minute target,
reached with two minutes of use, but whose sole notifyAt threshold is
150. -/
def goalOverTarget : Goal where
  id := "g1"
  type := "daily_limit"
  target := 1
  domain := none
  name := "G"
  enabled := true
  notifyAt := some [150]

/-- Ledger with two minutes of x.com on day d: twice goalOverTarget's
target. -/
def tdOverTarget : TimeData := [("d", [("x.com", 120000)])]

unseal Rat.add Rat.mul Rat.inv Rat.sub in
/-- C5, counterexample: with current at twice the target the true unclamped
ratio is 200, which reaches the 150 threshold, but the source stores
Math.min(100, ...) = 100 as the percentage and emits no notification: the
threshold comparison does not use the unclamped ratio. -/
theorem threshold_compare_uses_clamped_pct_cex :
    (getGoalProgress goalOverTarget tdOverTarget clockScenarioC).percentage = 100
    ∧ (100 : Rat) * ((120000 : Rat) / 60000) = 200
    ∧ (getGoalProgress goalOverTarget tdOverTarget clockScenarioC).exceeded = true
    ∧ (checkGoalNotifications
        { enabled := true, goals := [goalOverTarget], history := [] }
        tdOverTarget clockScenarioC).1 = [] := by
  decide

/-- C5 as amended: the percentage used for notifyAt comparisons is the
clamped value min(100, 100 * current / targetMs) rounded to one decimal, not
the unclamped ratio; the exceeded flag is still current > targetMs on the
raw values; consequently the stored percentage never exceeds 100 and a
threshold above 100 is never notified. -/
theorem percentage_clamped_rounded (goal : Goal) (td : TimeData) (c : Clock)
    (htarget : 0 < goal.target) :
    (getGoalProgress goal td c).percentage
        = (jsRound (min 100 ((goalCurrentTime goal td c : Rat)
              / ((goal.target * 60 * 1000 : Int) : Rat) * 100) * 10) : Rat) / 10
    ∧ (getGoalProgress goal td c).exceeded
        = decide (goal.target * 60 * 1000 < goalCurrentTime goal td c)
    ∧ (getGoalProgress goal td c).percentage ≤ 100
    ∧ (∀ (gs : GoalsState) (n : GoalNotif),
        n ∈ (checkGoalNotifications gs td c).1 → (n.threshold : Rat) ≤ 100) := by
  refine ⟨rfl, rfl, getGoalProgress_percentage_le goal td c, ?_⟩
  intro gs n hn
  rw [checkGoalNotifications] at hn
  exact notifyGoals_threshold_le td c gs.goals gs.history n hn

unseal Rat.add Rat.mul Rat.inv Rat.sub in
/-- Closed instance of the amended C5 at the over-target fixture: the stored
percentage is the clamped, rounded 100. -/
theorem percentage_clamped_rounded_witness :
    (getGoalProgress goalOverTarget tdOverTarget clockScenarioC).percentage
      = (jsRound (min 100 ((goalCurrentTime goalOverTarget tdOverTarget
            clockScenarioC : Rat)
          / ((goalOverTarget.target * 60 * 1000 : Int) : Rat) * 100) * 10) : Rat)
        / 10 :=
  (percentage_clamped_rounded goalOverTarget tdOverTarget clockScenarioC
    (by decide)).1

/-- The history key a notification corresponds to. -/
def notifKey (today : String) (n : GoalNotif) : String :=
  notificationKey n.goalId n.threshold today

/-- Threading invariant of the threshold loop: the history it returns is the
input history extended by exactly the keys of the notifications it pushed,
every pushed notification's key was absent from the input history, and the
pushed keys are pairwise distinct. -/
theorem notifyThresholds_threading (goal : Goal) (progress : GoalProgress)
    (today : String) :
    ∀ (thrs : List Int) (hist : List String),
      (notifyThresholds goal progress today thrs hist).2
          = hist ++ ((notifyThresholds goal progress today thrs hist).1.map
              (notifKey today))
      ∧ (∀ n ∈ (notifyThresholds goal progress today thrs hist).1,
          notifKey today n ∉ hist)
      ∧ ((notifyThresholds goal progress today thrs hist).1.map
          (notifKey today)).Nodup := by
  intro thrs
  induction thrs with
  | nil => intro hist; simp [notifyThresholds]
  | cons thr rest ih =>
    intro hist
    rw [notifyThresholds]
    split
    · next hcond =>
      obtain ⟨ht, hn, hd⟩ := ih (hist ++ [notificationKey goal.id thr today])
      have hkey : notifKey today
          { goalId := goal.id, goalName := goal.name, threshold := thr,
            progress := progress.percentage, exceeded := progress.exceeded }
          = notificationKey goal.id thr today := rfl
      refine ⟨?_, ?_, ?_⟩
      · simp only [List.map_cons, hkey]
        rw [ht]
        simp
      · intro n hn2
        simp only [List.mem_cons] at hn2
        rcases hn2 with rfl | hn2
        · rw [hkey]
          have := hcond.1
          simpa using this
        · intro hmem
          exact hn n hn2 (List.mem_append_left _ hmem)
      · simp only [List.map_cons, hkey, List.nodup_cons]
        refine ⟨?_, hd⟩
        intro hmem
        simp only [List.mem_map] at hmem
        obtain ⟨n, hn2, hkn⟩ := hmem
        exact hn n hn2 (by rw [hkn]; simp)
    · exact ih hist

/-- Threading invariant of the goal loop, composed from the threshold
loop. -/
theorem notifyGoals_threading (td : TimeData) (c : Clock) :
    ∀ (goals : List Goal) (hist : List String),
      (notifyGoals td c goals hist).2
          = hist ++ ((notifyGoals td c goals hist).1.map (notifKey c.today))
      ∧ (∀ n ∈ (notifyGoals td c goals hist).1, notifKey c.today n ∉ hist)
      ∧ ((notifyGoals td c goals hist).1.map (notifKey c.today)).Nodup := by
  intro goals
  induction goals with
  | nil => intro hist; simp [notifyGoals]
  | cons g rest ih =>
    intro hist
    rw [notifyGoals]
    split
    · exact ih hist
    · obtain ⟨ht1, hn1, hd1⟩ :=
        notifyThresholds_threading g (getGoalProgress g td c) c.today
          (g.notifyAt.getD [50, 80, 100]) hist
      obtain ⟨ht2, hn2, hd2⟩ :=
        ih (notifyThresholds g (getGoalProgress g td c) c.today
          (g.notifyAt.getD [50, 80, 100]) hist).2
      refine ⟨?_, ?_, ?_⟩
      · dsimp only
        rw [ht2, ht1]
        simp [List.append_assoc]
      · intro n hn
        dsimp only at hn
        simp only [List.mem_append] at hn
        rcases hn with hn | hn
        · exact hn1 n hn
        · intro hmem
          exact hn2 n hn (by rw [ht1]; exact List.mem_append_left _ hmem)
      · dsimp only
        rw [List.map_append, List.nodup_append]
        refine ⟨hd1, hd2, ?_⟩
        intro k hk1 hk2
        simp only [List.mem_map] at hk1 hk2
        obtain ⟨n1, hmem1, rfl⟩ := hk1
        obtain ⟨n2, hmem2, hk⟩ := hk2
        have hmem : notifKey c.today n2
            ∈ (notifyThresholds g (getGoalProgress g td c) c.today
                (g.notifyAt.getD [50, 80, 100]) hist).2 := by
          rw [hk, ht1]
          exact List.mem_append_right _ (List.mem_map_of_mem _ hmem1)
        exact hn2 n2 hmem2 hmem

/-- C8 as amended: within one checkGoalNotifications call a
(goalId, threshold, day) triple is notified at most once, a triple already
recorded in the history is never re-notified, and the stored history is
bounded by 100 entries with the oldest evicted first; across calls the
at-most-once guarantee holds only while the triple's key is still in the
bounded history — eviction can permit a same-day repeat. -/
theorem goal_notification_once_per_call_and_bounded (gs : GoalsState)
    (td : TimeData) (c : Clock) :
    (∀ n ∈ (checkGoalNotifications gs td c).1,
        notifKey c.today n ∉ gs.history)
    ∧ ((checkGoalNotifications gs td c).1.map (notifKey c.today)).Nodup
    ∧ (checkGoalNotifications gs td c).2.history.length ≤ 100 := by
  obtain ⟨ht, hn, hd⟩ := notifyGoals_threading td c gs.goals gs.history
  refine ⟨?_, ?_, ?_⟩
  · intro n hmem
    exact hn n (by simpa [checkGoalNotifications] using hmem)
  · simpa [checkGoalNotifications] using hd
  · rw [checkGoalNotifications]
    dsimp only
    split
    · next h =>
      rw [List.length_drop]
      omega
    · next h =>
      omega

/-- Thirty-four identical one-minute daily goals, ids g1 to g34, each with
the default 50/80/100 thresholds, all at 100 percent. -/
def manyGoals : List Goal :=
  (List.range 34).map fun i =>
    { id := "g" ++ toString (i + 1), type := "daily_limit", target := 1,
      domain := none, name := "G", enabled := true,
      notifyAt := some [50, 80, 100] }

/-- The goals record holding the thirty-four goals with empty history. -/
def gsMany : GoalsState := ⟨true, manyGoals, []⟩

/-- One minute of x.com on day d: exactly 100 percent of each goal. -/
def tdMany : TimeData := [("d", [("x.com", 60000)])]

unseal Rat.add Rat.mul Rat.inv Rat.sub in
/-- C8, counterexample: the first call notifies (g1, 50, d) and pushes 102
keys, so the 100-entry cap evicts g1's 50 and 80 keys; the second call on
the same day then notifies (g1, 50, d) again — the triple is emitted twice
within one calendar day. -/
theorem eviction_breaks_at_most_once_cex :
    ((checkGoalNotifications gsMany tdMany clockScenarioC).1.any
        fun n => n.goalId == "g1" && n.threshold == 50) = true
    ∧ (((checkGoalNotifications
          (checkGoalNotifications gsMany tdMany clockScenarioC).2
          tdMany clockScenarioC).1).any
        fun n => n.goalId == "g1" && n.threshold == 50) = true := by
  decide

unseal Rat.add Rat.mul Rat.inv Rat.sub in
/-- Closed instance of the amended C8 at the thirty-four-goal state: no
duplicate key within the call and the stored history is capped at 100. -/
theorem goal_notification_once_per_call_and_bounded_witness :
    ((checkGoalNotifications gsMany tdMany clockScenarioC).1.map
        (notifKey clockScenarioC.today)).Nodup
    ∧ (checkGoalNotifications gsMany tdMany clockScenarioC).2.history.length
        ≤ 100 :=
  ⟨(goal_notification_once_per_call_and_bounded gsMany tdMany clockScenarioC).2.1,
   (goal_notification_once_per_call_and_bounded gsMany tdMany clockScenarioC).2.2⟩

end ShameClock
